import Mathlib

/-!
# Smart Door Lock — verification of the authentication state machine

Shallow embedding of `src/smart_door_lock.ino` (Arduino Uno sketch).

The sketch is single-threaded: `loop()` runs one handler to completion per
tick, and all "blocking" calls (`delay`, servo motion, tones) finish inside
that handler.  We therefore model one `loop()` iteration as an atomic step
`tick : Config → Bool → Option Char → Nat → Config × List Effect`, where the
inputs are the PIR motion sample, the (at most one) key returned by
`keypad.getKey()`, and the value of `millis()` at the start of the tick.
Side effects on the LCD, LEDs, buzzer and servos are recorded in an
`Effect` trace in the order the source performs them; LED and servo state
is additionally mirrored in the configuration so that invariants about
them can be stated.

`millis()` is modelled as a `Nat`; elapsed-time subtractions in the source
are `unsigned long` subtractions, which agree with truncated `Nat`
subtraction whenever the clock value is at least the stored timestamp
(the monotonic-clock situation the sketch runs in).
-/

namespace SmartDoorLock

/-- `const char PASSWORD[] = "12345678"` (line 67). -/
def PASSWORD : List Char := ['1', '2', '3', '4', '5', '6', '7', '8']

/-- `const int PASS_LEN = 8` (line 68). -/
def PASS_LEN : Nat := 8

/-- `const unsigned long IDLE_TIMEOUT_MS = 10000` (line 70). -/
def IDLE_TIMEOUT_MS : Nat := 10000

/-- `const unsigned long LOCKOUT_MS = 15000` (line 71). -/
def LOCKOUT_MS : Nat := 15000

/-- `const int MAX_ATTEMPTS = 3` (line 73). -/
def MAX_ATTEMPTS : Nat := 3

/-- Servo reference angles (lines 76–80). -/
def SERVO1_CLOSED : Nat := 0

def SERVO1_OPEN : Nat := 90

def SERVO2_CLOSED : Nat := 180

def SERVO2_OPEN : Nat := 90

/-- `enum class State` (lines 85–92): the six implementation states. -/
inductive State where
  | IDLE
  | PROMPT
  | ENTRY
  | GRANTED
  | DENIED
  | LOCKED
  deriving DecidableEq, Repr

/-- The five-state machine of the specification (§3): the implementation's
extra `PROMPT` state is merged into `ENTRY`. -/
inductive AbsState where
  | IDLE
  | ENTRY
  | GRANTED
  | DENIED
  | LOCKED
  deriving DecidableEq, Repr

/-- Observable side effects, in the order the source performs them.
`lcd l1 l2` is `lcdHeader(l1, l2)`; `lcdMasked n` is `printMaskedProgress()`
with `inputIndex = n`; `lcdCountdown s` is the `"Wait <s> sec"` line of
`handleLockout`; `shortTone` is the reject tone `tone(PIN_BUZZER, 600, 50)`. -/
inductive Effect where
  | ledsOff
  | ledGranted
  | ledDenied
  | beepSuccess
  | beepError
  | beepLockout
  | shortTone
  | lcd (l1 l2 : String)
  | lcdMasked (filled : Nat)
  | lcdCountdown (secondsRemaining : Nat)
  | doorOpen
  | doorClose
  | delayMs (ms : Nat)
  deriving DecidableEq, Repr

/-- The mutable global state of the sketch (lines 94–102), plus the LED and
servo outputs it drives.  `inputBuffer` holds the `inputIndex` characters
entered so far (the C array's live prefix). -/
structure Config where
  state : State
  inputBuffer : List Char
  failedAttempts : Nat
  entryStartMs : Nat
  lockoutStartMs : Nat
  greenLed : Bool
  redLed : Bool
  servo1 : Nat
  servo2 : Nat
  deriving DecidableEq, Repr

/-- `isPasswordCorrect` (lines 167–172), instrumented with the number of
character comparisons the loop performs before returning.  The source loop
is `for (i = 0; i < PASS_LEN; i++) if (buf[i] != PASSWORD[i]) return false;
return true;`; here `n` is the number of iterations left (`PASS_LEN - i`),
so the recursion is structural. -/
def passLoop (buf : List Char) : Nat → Nat → Bool × Nat
  | _, 0 => (true, 0)
  | i, n + 1 =>
    if buf.getD i ' ' ≠ PASSWORD.getD i ' ' then (false, 1)
    else
      let r := passLoop buf (i + 1) n
      (r.1, r.2 + 1)

/-- Result of `isPasswordCorrect` (lines 167–172). -/
def isPasswordCorrect (buf : List Char) : Bool :=
  (passLoop buf 0 PASS_LEN).1

/-- Number of character comparisons `isPasswordCorrect` performs on `buf`. -/
def passwordComparisons (buf : List Char) : Nat :=
  (passLoop buf 0 PASS_LEN).2

/-- `goIdle` (lines 195–201): LEDs off, close door, `resetEntry()`
(clear buffer, `entryStartMs = millis()`), state `IDLE`, idle banner. -/
def goIdle (c : Config) (now : Nat) : Config × List Effect :=
  ({ c with
      greenLed := false, redLed := false,
      servo1 := SERVO1_CLOSED, servo2 := SERVO2_CLOSED,
      inputBuffer := [], entryStartMs := now,
      state := State.IDLE },
   [Effect.ledsOff, Effect.doorClose, Effect.lcd "System Idle" "Waiting motion"])

/-- `goPrompt` (lines 203–209): LEDs off, `resetEntry()`, state `PROMPT`,
prompt banner and masked progress (empty). -/
def goPrompt (c : Config) (now : Nat) : Config × List Effect :=
  ({ c with
      greenLed := false, redLed := false,
      inputBuffer := [], entryStartMs := now,
      state := State.PROMPT },
   [Effect.ledsOff, Effect.lcd "Enter Password:" "", Effect.lcdMasked 0])

/-- `goGranted` (lines 211–223): state `GRANTED`, green LED, success beep,
open door, hold, close door, then `goIdle()`. -/
def goGranted (c : Config) (now : Nat) : Config × List Effect :=
  let c1 : Config :=
    { c with
        state := State.GRANTED,
        greenLed := true, redLed := false,
        servo1 := SERVO1_OPEN, servo2 := SERVO2_OPEN }
  let c2 : Config := { c1 with servo1 := SERVO1_CLOSED, servo2 := SERVO2_CLOSED }
  let r := goIdle c2 now
  (r.1,
   [Effect.ledGranted, Effect.lcd "Access Granted" "Opening...",
    Effect.beepSuccess, Effect.doorOpen, Effect.delayMs 2000,
    Effect.lcd "Door Open" "Closing soon", Effect.delayMs 2000,
    Effect.doorClose, Effect.delayMs 500] ++ r.2)

/-- `goDenied` (lines 225–242): state `DENIED`, red LED, error beep,
increment `failedAttempts`; at `MAX_ATTEMPTS` enter `LOCKED`
(`lockoutStartMs = millis()`), otherwise `goPrompt()`. -/
def goDenied (c : Config) (now : Nat) : Config × List Effect :=
  let c1 : Config :=
    { c with
        state := State.DENIED,
        greenLed := false, redLed := true,
        failedAttempts := c.failedAttempts + 1 }
  let head : List Effect :=
    [Effect.ledDenied, Effect.lcd "Access Denied" "Try again",
     Effect.beepError, Effect.delayMs 1500]
  if c1.failedAttempts ≥ MAX_ATTEMPTS then
    ({ c1 with lockoutStartMs := now, state := State.LOCKED },
     head ++ [Effect.lcd "LOCKED OUT" "Wait 15 sec", Effect.beepLockout, Effect.ledDenied])
  else
    let r := goPrompt c1 now
    (r.1, head ++ r.2)

/-- `handleKeypad` (lines 244–281).  `key = keypad.getKey()` is the optional
key of the tick; a key press first refreshes `entryStartMs = millis()`
(line 248), then `'*'` cancels, `'#'` submits, and any other key is appended
when the buffer is not full and rejected with a short tone when it is. -/
def handleKeypad (c : Config) (key : Option Char) (now : Nat) : Config × List Effect :=
  match key with
  | none => (c, [])
  | some k =>
    let c0 : Config := { c with entryStartMs := now }
    if k = '*' then
      let r := goIdle c0 now
      (r.1, [Effect.lcd "Cancelled" "Returning...", Effect.delayMs 800] ++ r.2)
    else if k = '#' then
      if c0.inputBuffer.length < PASS_LEN then
        (c0,
         [Effect.lcd "Password short" "Enter 8 chars", Effect.delayMs 1000,
          Effect.lcd "Enter Password:" "", Effect.lcdMasked c0.inputBuffer.length])
      else if isPasswordCorrect c0.inputBuffer then
        goGranted { c0 with failedAttempts := 0 } now
      else
        goDenied c0 now
    else
      if c0.inputBuffer.length < PASS_LEN then
        ({ c0 with inputBuffer := c0.inputBuffer ++ [k] },
         [Effect.lcdMasked (c0.inputBuffer.length + 1)])
      else
        (c0, [Effect.shortTone])

/-- `handleTimeout` (lines 283–291): in `PROMPT`/`ENTRY`, if
`millis() - entryStartMs > IDLE_TIMEOUT_MS` then timeout banner and
`goIdle()`. -/
def handleTimeout (c : Config) (now : Nat) : Config × List Effect :=
  if c.state = State.PROMPT ∨ c.state = State.ENTRY then
    if now - c.entryStartMs > IDLE_TIMEOUT_MS then
      let r := goIdle c now
      (r.1, [Effect.lcd "Timeout" "Returning...", Effect.delayMs 800] ++ r.2)
    else (c, [])
  else (c, [])

/-- `handleLockout` (lines 293–307): on expiry reset `failedAttempts` and
`goIdle()`; otherwise display `(LOCKOUT_MS - elapsed) / 1000` seconds. -/
def handleLockout (c : Config) (now : Nat) : Config × List Effect :=
  let elapsed := now - c.lockoutStartMs
  if elapsed ≥ LOCKOUT_MS then
    let r := goIdle { c with failedAttempts := 0 } now
    (r.1, [Effect.lcd "Unlocked" "Try again", Effect.delayMs 800] ++ r.2)
  else
    (c, [Effect.lcdCountdown ((LOCKOUT_MS - elapsed) / 1000)])

/-- One iteration of `loop()` (lines 327–348): `LOCKED` runs the lockout
handler; `IDLE` waits for motion and then runs `goPrompt()` followed by
`state = State::ENTRY`; `PROMPT`/`ENTRY` run `handleKeypad()` then
`handleTimeout()`. -/
def tick (c : Config) (motion : Bool) (key : Option Char) (now : Nat) :
    Config × List Effect :=
  if c.state = State.LOCKED then
    handleLockout c now
  else if c.state = State.IDLE then
    if motion then
      let r := goPrompt c now
      ({ r.1 with state := State.ENTRY },
       [Effect.lcd "Motion Detected" "Authenticating", Effect.delayMs 700] ++ r.2)
    else (c, [])
  else if c.state = State.PROMPT ∨ c.state = State.ENTRY then
    let r1 := handleKeypad c key now
    let r2 := handleTimeout r1.1 now
    (r2.1, r1.2 ++ r2.2)
  else
    (c, [])

/-- The state after `setup()` (lines 309–325): LEDs off, servos at the
closed angles, then `goIdle()` with the clock at 0. -/
def initConfig : Config :=
  (goIdle
    { state := State.IDLE, inputBuffer := [], failedAttempts := 0,
      entryStartMs := 0, lockoutStartMs := 0,
      greenLed := false, redLed := false,
      servo1 := SERVO1_CLOSED, servo2 := SERVO2_CLOSED } 0).1

/-- Configurations reachable from startup by iterating `loop()`. -/
inductive Reachable : Config → Prop where
  | init : Reachable initConfig
  | step (c : Config) (motion : Bool) (key : Option Char) (now : Nat) :
      Reachable c → Reachable (tick c motion key now).1

/-- Run the machine from startup on a list of per-tick inputs
`(motion, key, now)`. -/
def run (inputs : List (Bool × Option Char × Nat)) : Config :=
  inputs.foldl (fun c i => (tick c i.1 i.2.1 i.2.2).1) initConfig

theorem reachable_run (inputs : List (Bool × Option Char × Nat)) :
    Reachable (run inputs) := by
  suffices h : ∀ c, Reachable c →
      Reachable (inputs.foldl (fun c i => (tick c i.1 i.2.1 i.2.2).1) c) by
    exact h initConfig Reachable.init
  induction inputs with
  | nil => intro c hc; exact hc
  | cons i rest ih =>
    intro c hc
    exact ih _ (Reachable.step c i.1 i.2.1 i.2.2 hc)

/-- Map the implementation's six states onto the specification's five
states: `PROMPT` is merged into `ENTRY`. -/
def absState : State → AbsState
  | State.IDLE => AbsState.IDLE
  | State.PROMPT => AbsState.ENTRY
  | State.ENTRY => AbsState.ENTRY
  | State.GRANTED => AbsState.GRANTED
  | State.DENIED => AbsState.DENIED
  | State.LOCKED => AbsState.LOCKED

/-- The five-state view of a configuration. -/
structure AbsConfig where
  state : AbsState
  inputBuffer : List Char
  failedAttempts : Nat
  entryStartMs : Nat
  lockoutStartMs : Nat
  greenLed : Bool
  redLed : Bool
  servo1 : Nat
  servo2 : Nat
  deriving DecidableEq, Repr

/-- Abstraction of a configuration. -/
def absConfig (c : Config) : AbsConfig :=
  { state := absState c.state,
    inputBuffer := c.inputBuffer,
    failedAttempts := c.failedAttempts,
    entryStartMs := c.entryStartMs,
    lockoutStartMs := c.lockoutStartMs,
    greenLed := c.greenLed,
    redLed := c.redLed,
    servo1 := c.servo1,
    servo2 := c.servo2 }

/-- Abstraction of a handler result: the five-state view of the new
configuration together with the unchanged effect trace. -/
def absRes (r : Config × List Effect) : AbsConfig × List Effect :=
  (absConfig r.1, r.2)

/-- The inductive invariant of the loop: the buffer never exceeds
`PASS_LEN`; in the resting states `IDLE`/`PROMPT`/`ENTRY` the attempt
counter is below `MAX_ATTEMPTS`, and in `LOCKED` it equals it; in `IDLE`
the LEDs are off, the servos are at the closed angles and the buffer is
empty; the transient states `GRANTED`/`DENIED` never persist to the top of
`loop()`. -/
def Inv (c : Config) : Prop :=
  c.inputBuffer.length ≤ PASS_LEN ∧
  ((c.state = State.IDLE ∨ c.state = State.PROMPT ∨ c.state = State.ENTRY) →
    c.failedAttempts < MAX_ATTEMPTS) ∧
  (c.state = State.LOCKED → c.failedAttempts = MAX_ATTEMPTS) ∧
  (c.state = State.IDLE →
    c.greenLed = false ∧ c.redLed = false ∧ c.servo1 = SERVO1_CLOSED ∧
    c.servo2 = SERVO2_CLOSED ∧ c.inputBuffer = []) ∧
  c.state ≠ State.GRANTED ∧ c.state ≠ State.DENIED

theorem inv_init : Inv initConfig := by
  refine ⟨?_, ?_, ?_, ?_, ?_, ?_⟩ <;> decide

/-- An entry-phase state is none of the other four states. -/
theorem entry_ne {c : Config}
    (hs : c.state = State.PROMPT ∨ c.state = State.ENTRY) :
    c.state ≠ State.IDLE ∧ c.state ≠ State.LOCKED ∧
    c.state ≠ State.GRANTED ∧ c.state ≠ State.DENIED := by
  rcases hs with hh | hh <;> rw [hh] <;> exact ⟨by decide, by decide, by decide, by decide⟩

theorem inv_goIdle (c : Config) (now : Nat)
    (h : c.failedAttempts < MAX_ATTEMPTS) : Inv (goIdle c now).1 := by
  refine ⟨by simp [goIdle, PASS_LEN], fun _ => h, by simp [goIdle], ?_, by simp [goIdle], by simp [goIdle]⟩
  intro _
  simp [goIdle]

theorem inv_goPrompt (c : Config) (now : Nat)
    (h : c.failedAttempts < MAX_ATTEMPTS) : Inv (goPrompt c now).1 := by
  refine ⟨by simp [goPrompt, PASS_LEN], fun _ => h, by simp [goPrompt], by simp [goPrompt],
    by simp [goPrompt], by simp [goPrompt]⟩

theorem inv_goGranted (c : Config) (now : Nat)
    (h : c.failedAttempts < MAX_ATTEMPTS) : Inv (goGranted c now).1 := by
  refine ⟨by simp [goGranted, goIdle, PASS_LEN], fun _ => h, by simp [goGranted, goIdle], ?_,
    by simp [goGranted, goIdle], by simp [goGranted, goIdle]⟩
  intro _
  simp [goGranted, goIdle, SERVO1_CLOSED, SERVO2_CLOSED]

theorem inv_goDenied (c : Config) (now : Nat)
    (h : c.failedAttempts < MAX_ATTEMPTS) (hb : c.inputBuffer.length ≤ PASS_LEN) :
    Inv (goDenied c now).1 := by
  simp only [goDenied]
  split_ifs with hge
  · simp only at hge
    refine ⟨by simpa using hb, by simp, ?_, by simp, by simp, by simp⟩
    intro _
    simp only [MAX_ATTEMPTS] at h hge ⊢
    omega
  · exact inv_goPrompt _ now (by simp only [MAX_ATTEMPTS] at h hge ⊢; omega)

theorem inv_handleKeypad (c : Config) (key : Option Char) (now : Nat)
    (hinv : Inv c) (hs : c.state = State.PROMPT ∨ c.state = State.ENTRY) :
    Inv (handleKeypad c key now).1 := by
  obtain ⟨hb, hfa, hlk, hidle, hg, hd⟩ := hinv
  obtain ⟨hni, hnl, hngr, hnd⟩ := entry_ne hs
  have hfa' : c.failedAttempts < MAX_ATTEMPTS := hfa (Or.inr hs)
  rcases key with _ | k
  · exact ⟨hb, hfa, hlk, hidle, hg, hd⟩
  · simp only [handleKeypad]
    split_ifs with h1 h2 h3 h4 h5
    · exact inv_goIdle _ now hfa'
    · exact ⟨hb, fun _ => hfa', fun hc => absurd hc hnl, fun hc => absurd hc hni, hg, hd⟩
    · exact inv_goGranted _ now (by simp [MAX_ATTEMPTS])
    · exact inv_goDenied _ now hfa' hb
    · refine ⟨?_, fun _ => hfa', fun hc => absurd hc hnl, fun hc => absurd hc hni, hg, hd⟩
      simp only [List.length_append, List.length_cons, List.length_nil]
      simp only [PASS_LEN] at h5 ⊢
      omega
    · exact ⟨hb, fun _ => hfa', fun hc => absurd hc hnl, fun hc => absurd hc hni, hg, hd⟩

theorem inv_handleTimeout (c : Config) (now : Nat) (hinv : Inv c) :
    Inv (handleTimeout c now).1 := by
  obtain ⟨hb, hfa, hlk, hidle, hg, hd⟩ := hinv
  simp only [handleTimeout]
  split_ifs with hs ht
  · exact inv_goIdle _ now (hfa (Or.inr hs))
  · exact ⟨hb, hfa, hlk, hidle, hg, hd⟩
  · exact ⟨hb, hfa, hlk, hidle, hg, hd⟩

theorem inv_handleLockout (c : Config) (now : Nat) (hinv : Inv c) :
    Inv (handleLockout c now).1 := by
  obtain ⟨hb, hfa, hlk, hidle, hg, hd⟩ := hinv
  simp only [handleLockout]
  split_ifs with hexp
  · exact inv_goIdle _ now (by simp [MAX_ATTEMPTS])
  · exact ⟨hb, hfa, hlk, hidle, hg, hd⟩

theorem inv_tick (c : Config) (motion : Bool) (key : Option Char) (now : Nat)
    (hinv : Inv c) : Inv (tick c motion key now).1 := by
  simp only [tick]
  split_ifs with hlock hidle hmot hentry
  · exact inv_handleLockout c now hinv
  · obtain ⟨hb, hfa, hlk, hid, hg, hd⟩ := hinv
    have hfa0 := hfa (Or.inl hidle)
    simp only [goPrompt]
    exact ⟨by simp [PASS_LEN], fun _ => hfa0, by simp, by simp, by simp, by simp⟩
  · exact hinv
  · exact inv_handleTimeout _ now (inv_handleKeypad c key now hinv hentry)
  · exact hinv

theorem reachable_inv (c : Config) (h : Reachable c) : Inv c := by
  induction h with
  | init => exact inv_init
  | step c m k t _ ih => exact inv_tick c m k t ih

/-! ### Branch equations for the handlers -/

theorem handleKeypad_none (c : Config) (t : Nat) :
    handleKeypad c none t = (c, []) := rfl

theorem handleKeypad_cancel (c : Config) (t : Nat) :
    handleKeypad c (some '*') t =
      ({ c with
          greenLed := false, redLed := false, servo1 := SERVO1_CLOSED,
          servo2 := SERVO2_CLOSED, inputBuffer := [], entryStartMs := t,
          state := State.IDLE },
       [Effect.lcd "Cancelled" "Returning...", Effect.delayMs 800,
        Effect.ledsOff, Effect.doorClose, Effect.lcd "System Idle" "Waiting motion"]) := by
  simp [handleKeypad, goIdle]

theorem handleKeypad_submit_short (c : Config) (t : Nat)
    (h : c.inputBuffer.length < PASS_LEN) :
    handleKeypad c (some '#') t =
      ({ c with entryStartMs := t },
       [Effect.lcd "Password short" "Enter 8 chars", Effect.delayMs 1000,
        Effect.lcd "Enter Password:" "", Effect.lcdMasked c.inputBuffer.length]) := by
  simp [handleKeypad, h]

theorem handleKeypad_submit_ok (c : Config) (t : Nat)
    (h : ¬ c.inputBuffer.length < PASS_LEN)
    (hp : isPasswordCorrect c.inputBuffer = true) :
    handleKeypad c (some '#') t =
      goGranted { c with entryStartMs := t, failedAttempts := 0 } t := by
  simp [handleKeypad, h, hp]

theorem handleKeypad_submit_wrong (c : Config) (t : Nat)
    (h : ¬ c.inputBuffer.length < PASS_LEN)
    (hp : isPasswordCorrect c.inputBuffer = false) :
    handleKeypad c (some '#') t =
      goDenied { c with entryStartMs := t } t := by
  simp [handleKeypad, h, hp]

theorem handleKeypad_append (c : Config) (t : Nat) (k : Char)
    (hk1 : k ≠ '*') (hk2 : k ≠ '#') (h : c.inputBuffer.length < PASS_LEN) :
    handleKeypad c (some k) t =
      ({ c with
          entryStartMs := t, inputBuffer := c.inputBuffer ++ [k] },
       [Effect.lcdMasked (c.inputBuffer.length + 1)]) := by
  simp [handleKeypad, hk1, hk2, h]

theorem handleKeypad_reject (c : Config) (t : Nat) (k : Char)
    (hk1 : k ≠ '*') (hk2 : k ≠ '#') (h : ¬ c.inputBuffer.length < PASS_LEN) :
    handleKeypad c (some k) t =
      ({ c with entryStartMs := t }, [Effect.shortTone]) := by
  simp [handleKeypad, hk1, hk2, h]

theorem goGranted_eq (c : Config) (t : Nat) :
    goGranted c t =
      ({ c with
          greenLed := false, redLed := false, servo1 := SERVO1_CLOSED,
          servo2 := SERVO2_CLOSED, inputBuffer := [], entryStartMs := t,
          state := State.IDLE },
       [Effect.ledGranted, Effect.lcd "Access Granted" "Opening...",
        Effect.beepSuccess, Effect.doorOpen, Effect.delayMs 2000,
        Effect.lcd "Door Open" "Closing soon", Effect.delayMs 2000,
        Effect.doorClose, Effect.delayMs 500, Effect.ledsOff, Effect.doorClose,
        Effect.lcd "System Idle" "Waiting motion"]) := by
  simp [goGranted, goIdle]

theorem goDenied_locked (c : Config) (t : Nat)
    (h : c.failedAttempts + 1 ≥ MAX_ATTEMPTS) :
    goDenied c t =
      ({ c with
          state := State.LOCKED, greenLed := false, redLed := true,
          failedAttempts := c.failedAttempts + 1, lockoutStartMs := t },
       [Effect.ledDenied, Effect.lcd "Access Denied" "Try again", Effect.beepError,
        Effect.delayMs 1500, Effect.lcd "LOCKED OUT" "Wait 15 sec",
        Effect.beepLockout, Effect.ledDenied]) := by
  simp [goDenied, h]

theorem goDenied_prompt (c : Config) (t : Nat)
    (h : ¬ c.failedAttempts + 1 ≥ MAX_ATTEMPTS) :
    goDenied c t =
      ({ c with
          state := State.PROMPT, greenLed := false, redLed := false,
          failedAttempts := c.failedAttempts + 1, inputBuffer := [], entryStartMs := t },
       [Effect.ledDenied, Effect.lcd "Access Denied" "Try again", Effect.beepError,
        Effect.delayMs 1500, Effect.ledsOff, Effect.lcd "Enter Password:" "",
        Effect.lcdMasked 0]) := by
  simp [goDenied, goPrompt, h]

theorem handleTimeout_expired (c : Config) (t : Nat)
    (hs : c.state = State.PROMPT ∨ c.state = State.ENTRY)
    (h : t - c.entryStartMs > IDLE_TIMEOUT_MS) :
    handleTimeout c t =
      ({ c with
          greenLed := false, redLed := false, servo1 := SERVO1_CLOSED,
          servo2 := SERVO2_CLOSED, inputBuffer := [], entryStartMs := t,
          state := State.IDLE },
       [Effect.lcd "Timeout" "Returning...", Effect.delayMs 800,
        Effect.ledsOff, Effect.doorClose, Effect.lcd "System Idle" "Waiting motion"]) := by
  simp [handleTimeout, goIdle, hs, h]

theorem handleTimeout_not_expired (c : Config) (t : Nat)
    (h : ¬ t - c.entryStartMs > IDLE_TIMEOUT_MS) :
    handleTimeout c t = (c, []) := by
  simp only [handleTimeout]
  split_ifs with hs
  · rfl
  · rfl

theorem handleTimeout_not_entry (c : Config) (t : Nat)
    (h : ¬ (c.state = State.PROMPT ∨ c.state = State.ENTRY)) :
    handleTimeout c t = (c, []) := by
  simp only [handleTimeout, if_neg h]

theorem handleTimeout_refreshed (c : Config) (t : Nat) (h : c.entryStartMs = t) :
    handleTimeout c t = (c, []) := by
  apply handleTimeout_not_expired
  simp [h, IDLE_TIMEOUT_MS]

theorem handleLockout_expired (c : Config) (t : Nat)
    (h : t - c.lockoutStartMs ≥ LOCKOUT_MS) :
    handleLockout c t =
      ({ c with
          failedAttempts := 0, greenLed := false, redLed := false,
          servo1 := SERVO1_CLOSED, servo2 := SERVO2_CLOSED, inputBuffer := [],
          entryStartMs := t, state := State.IDLE },
       [Effect.lcd "Unlocked" "Try again", Effect.delayMs 800,
        Effect.ledsOff, Effect.doorClose, Effect.lcd "System Idle" "Waiting motion"]) := by
  simp [handleLockout, goIdle, h]

theorem handleLockout_waiting (c : Config) (t : Nat)
    (h : ¬ t - c.lockoutStartMs ≥ LOCKOUT_MS) :
    handleLockout c t =
      (c, [Effect.lcdCountdown ((LOCKOUT_MS - (t - c.lockoutStartMs)) / 1000)]) := by
  simp [handleLockout, h]

/-! ### Branch equations for `loop()` -/

theorem tick_locked (c : Config) (m : Bool) (k : Option Char) (t : Nat)
    (hs : c.state = State.LOCKED) : tick c m k t = handleLockout c t := by
  simp only [tick, if_pos hs]

theorem tick_idle_motion (c : Config) (k : Option Char) (t : Nat)
    (hs : c.state = State.IDLE) :
    tick c true k t =
      ({ c with
          greenLed := false, redLed := false, inputBuffer := [],
          entryStartMs := t, state := State.ENTRY },
       [Effect.lcd "Motion Detected" "Authenticating", Effect.delayMs 700,
        Effect.ledsOff, Effect.lcd "Enter Password:" "", Effect.lcdMasked 0]) := by
  have hnl : c.state ≠ State.LOCKED := by rw [hs]; decide
  simp [tick, if_neg hnl, if_pos hs, goPrompt]

theorem tick_idle_still (c : Config) (k : Option Char) (t : Nat)
    (hs : c.state = State.IDLE) : tick c false k t = (c, []) := by
  have hnl : c.state ≠ State.LOCKED := by rw [hs]; decide
  simp [tick, if_neg hnl, if_pos hs]

/-- With a key in the same tick, the key handler sets `entryStartMs = now`
in every branch. -/
theorem handleKeypad_entryStart (c : Config) (k : Char) (t : Nat) :
    (handleKeypad c (some k) t).1.entryStartMs = t := by
  simp only [handleKeypad]
  split_ifs with h1 h2 h3 h4 h5
  · simp [goIdle]
  · rfl
  · simp [goGranted, goIdle]
  · simp only [goDenied]
    split_ifs with h6
    · rfl
    · simp [goPrompt]
  · rfl
  · rfl

/-- In the entry phase, a tick with a key is exactly the keypad handler:
the subsequent timeout check contributes nothing, because the key press
refreshed `entryStartMs`. -/
theorem tick_entry_key (c : Config) (m : Bool) (k : Char) (t : Nat)
    (hs : c.state = State.PROMPT ∨ c.state = State.ENTRY) :
    tick c m (some k) t = handleKeypad c (some k) t := by
  obtain ⟨hni, hnl, _, _⟩ := entry_ne hs
  simp only [tick, if_neg hnl, if_neg hni, if_pos hs]
  rw [handleTimeout_refreshed _ t (handleKeypad_entryStart c k t)]
  simp

/-- In the entry phase, a tick with no key is exactly the timeout check. -/
theorem tick_entry_nokey (c : Config) (m : Bool) (t : Nat)
    (hs : c.state = State.PROMPT ∨ c.state = State.ENTRY) :
    tick c m none t = handleTimeout c t := by
  obtain ⟨hni, hnl, _, _⟩ := entry_ne hs
  simp only [tick, if_neg hnl, if_neg hni, if_pos hs, handleKeypad_none]
  simp

/-! ### The password-comparison loop -/

theorem passLoop_true_iff (buf : List Char) :
    ∀ n i, (passLoop buf i n).1 = true ↔
      ∀ j, j < n → buf.getD (i + j) ' ' = PASSWORD.getD (i + j) ' ' := by
  intro n
  induction n with
  | zero => intro i; simp [passLoop]
  | succ n ih =>
    intro i
    simp only [passLoop]
    split_ifs with hmis
    · simp only [Bool.false_eq_true, false_iff]
      intro hall
      exact hmis (by simpa using hall 0 (Nat.succ_pos n))
    · rw [ih (i + 1)]
      push_neg at hmis
      constructor
      · intro hrest j hj
        rcases Nat.eq_zero_or_pos j with hj0 | hjpos
        · simpa [hj0] using hmis
        · obtain ⟨j', rfl⟩ := Nat.exists_eq_add_of_lt hjpos
          have := hrest j' (by omega)
          simpa [Nat.add_comm, Nat.add_assoc, Nat.add_left_comm] using this
      · intro hall j hj
        have := hall (j + 1) (by omega)
        simpa [Nat.add_comm, Nat.add_assoc, Nat.add_left_comm] using this

theorem passLoop_count_le (buf : List Char) :
    ∀ n i, (passLoop buf i n).2 ≤ n := by
  intro n
  induction n with
  | zero => intro i; simp [passLoop]
  | succ n ih =>
    intro i
    simp only [passLoop]
    split_ifs with hmis
    · omega
    · have := ih (i + 1)
      omega

theorem passLoop_count_of_true (buf : List Char) :
    ∀ n i, (passLoop buf i n).1 = true → (passLoop buf i n).2 = n := by
  intro n
  induction n with
  | zero => intro i _; simp [passLoop]
  | succ n ih =>
    intro i htrue
    simp only [passLoop] at htrue ⊢
    split_ifs with hmis
    · rw [if_pos hmis] at htrue
      exact absurd htrue (by simp)
    · rw [if_neg hmis] at htrue
      have := ih (i + 1) htrue
      omega

/-- If the first mismatch against the secret is at offset `j` (all earlier
offsets agree), the comparison loop performs exactly `j + 1` comparisons
before returning. -/
theorem passLoop_count_first_mismatch (buf : List Char) :
    ∀ n i j, j < n →
      (∀ l, l < j → buf.getD (i + l) ' ' = PASSWORD.getD (i + l) ' ') →
      buf.getD (i + j) ' ' ≠ PASSWORD.getD (i + j) ' ' →
      (passLoop buf i n).2 = j + 1 := by
  intro n
  induction n with
  | zero => intro i j hj _ _; exact absurd hj (Nat.not_lt_zero j)
  | succ n ih =>
    intro i j hj hbelow hmis
    simp only [passLoop]
    split_ifs with h0
    · cases j with
      | zero => rfl
      | succ j' => exact absurd (by simpa using hbelow 0 (Nat.succ_pos j')) h0
    · push_neg at h0
      cases j with
      | zero => exact absurd h0 (by simpa using hmis)
      | succ j' =>
        have hcount := ih (i + 1) j' (by omega)
          (fun l hl => by
            have := hbelow (l + 1) (by omega)
            simpa [Nat.add_comm, Nat.add_assoc, Nat.add_left_comm] using this)
          (by
            have := hmis
            simpa [Nat.add_comm, Nat.add_assoc, Nat.add_left_comm] using this)
        simp only [hcount]

/-- A buffer of length `PASS_LEN` that agrees with the secret on every
position is the secret. -/
theorem eq_password_of_elementwise (buf : List Char) (hl : buf.length = PASS_LEN)
    (h : ∀ j, j < PASS_LEN → buf.getD j ' ' = PASSWORD.getD j ' ') :
    buf = PASSWORD := by
  apply List.ext_getElem
  · rw [hl]; rfl
  · intro i h1 h2
    have hi : i < PASS_LEN := by rw [hl] at h1; exact h1
    have := h i hi
    rwa [List.getD_eq_getElem buf ' ' h1, List.getD_eq_getElem PASSWORD ' ' h2] at this

theorem isPasswordCorrect_iff (buf : List Char) (hl : buf.length = PASS_LEN) :
    isPasswordCorrect buf = true ↔ buf = PASSWORD := by
  rw [isPasswordCorrect, passLoop_true_iff buf PASS_LEN 0]
  constructor
  · intro h
    exact eq_password_of_elementwise buf hl (by simpa using h)
  · intro h
    subst h
    simp

/-- Case analysis of the attempt counter over one entry-phase tick. -/
theorem attempt_counter_entry_aux (c : Config) (m : Bool) (k : Option Char) (t : Nat)
    (hs : c.state = State.PROMPT ∨ c.state = State.ENTRY) :
    ((tick c m k t).1.failedAttempts = MAX_ATTEMPTS ∧
        c.failedAttempts < MAX_ATTEMPTS →
      (tick c m k t).1.state = State.LOCKED) ∧
    (k = some '#' → ¬ c.inputBuffer.length < PASS_LEN →
      isPasswordCorrect c.inputBuffer = true →
      (tick c m k t).1.failedAttempts = 0) ∧
    ((tick c m k t).1.failedAttempts = 0 → c.failedAttempts ≠ 0 →
      k = some '#' ∧ isPasswordCorrect c.inputBuffer = true ∧
        (tick c m k t).1.state = State.IDLE) := by
  rcases k with _ | kc
  · simp only [tick_entry_nokey c m t hs]
    by_cases hexp : t - c.entryStartMs > IDLE_TIMEOUT_MS
    · simp only [handleTimeout_expired c t hs hexp]
      refine ⟨?_, ?_, ?_⟩
      · intro hcon; exfalso; simp only [MAX_ATTEMPTS] at hcon; omega
      · intro hk; exact absurd hk (by decide)
      · intro h0 hne; exact absurd h0 hne
    · simp only [handleTimeout_not_expired c t hexp]
      refine ⟨?_, ?_, ?_⟩
      · intro hcon; exfalso; simp only [MAX_ATTEMPTS] at hcon; omega
      · intro hk; exact absurd hk (by decide)
      · intro h0 hne; exact absurd h0 hne
  · simp only [tick_entry_key c m kc t hs]
    by_cases hk1 : kc = '*'
    · subst hk1
      simp only [handleKeypad_cancel c t]
      refine ⟨?_, ?_, ?_⟩
      · intro hcon; exfalso; simp only [MAX_ATTEMPTS] at hcon; omega
      · intro hk; exact absurd hk (by decide)
      · intro h0 hne; exact absurd h0 hne
    · by_cases hk2 : kc = '#'
      · subst hk2
        by_cases hlen : c.inputBuffer.length < PASS_LEN
        · simp only [handleKeypad_submit_short c t hlen]
          refine ⟨?_, ?_, ?_⟩
          · intro hcon; exfalso; simp only [MAX_ATTEMPTS] at hcon; omega
          · intro _ hnl _; exact absurd hlen hnl
          · intro h0 hne; exact absurd h0 hne
        · by_cases hp : isPasswordCorrect c.inputBuffer = true
          · simp only [handleKeypad_submit_ok c t hlen hp, goGranted_eq]
            refine ⟨?_, ?_, ?_⟩
            · intro hcon; exfalso; simp only [MAX_ATTEMPTS] at hcon; omega
            · intro _ _ _; trivial
            · intro _ _; exact ⟨trivial, hp, trivial⟩
          · have hpf : isPasswordCorrect c.inputBuffer = false := by
              simpa using hp
            simp only [handleKeypad_submit_wrong c t hlen hpf]
            by_cases hge : c.failedAttempts + 1 ≥ MAX_ATTEMPTS
            · simp only [goDenied_locked { c with entryStartMs := t } t hge]
              refine ⟨?_, ?_, ?_⟩
              · intro _; trivial
              · intro _ _ hpc; exact absurd hpc hp
              · intro h0 _; exfalso; omega
            · simp only [goDenied_prompt { c with entryStartMs := t } t hge]
              refine ⟨?_, ?_, ?_⟩
              · intro hcon; exfalso
                simp only [MAX_ATTEMPTS] at hcon hge; omega
              · intro _ _ hpc; exact absurd hpc hp
              · intro h0 _; exfalso; omega
      · by_cases hlen : c.inputBuffer.length < PASS_LEN
        · simp only [handleKeypad_append c t kc hk1 hk2 hlen]
          refine ⟨?_, ?_, ?_⟩
          · intro hcon; exfalso; simp only [MAX_ATTEMPTS] at hcon; omega
          · intro hk; exact absurd (Option.some.inj hk) hk2
          · intro h0 hne; exact absurd h0 hne
        · simp only [handleKeypad_reject c t kc hk1 hk2 hlen]
          refine ⟨?_, ?_, ?_⟩
          · intro hcon; exfalso; simp only [MAX_ATTEMPTS] at hcon; omega
          · intro hk; exact absurd (Option.some.inj hk) hk2
          · intro h0 hne; exact absurd h0 hne

/-- Traces used as concrete witnesses: motion, then the eight keys
`'1'..'8'` (all at clock 0). -/
def entryFullTrace : List (Bool × Option Char × Nat) :=
  (true, none, 0) ::
    ['1', '2', '3', '4', '5', '6', '7', '8'].map (fun ch => (false, some ch, 0))

/-- One wrong eight-character attempt followed by submit (all at clock 0). -/
def wrongAttempt : List (Bool × Option Char × Nat) :=
  (['8', '7', '6', '5', '4', '3', '2', '1'].map (fun ch => (false, some ch, 0))) ++
    [(false, some '#', 0)]

/-- Motion, then three wrong submissions: ends in `LOCKED`. -/
def lockoutTrace : List (Bool × Option Char × Nat) :=
  (true, none, 0) :: (wrongAttempt ++ wrongAttempt ++ wrongAttempt)

/-- C2: in every reachable configuration the attempt counter lies in
[0, MAX_ATTEMPTS]; a tick can raise it to MAX_ATTEMPTS only by moving to
LOCKED in the same step; from LOCKED a tick either leaves the configuration
unchanged or exits to IDLE with the counter reset (so the transition into
LOCKED fires exactly once per lockout); the counter is reset to 0 on the
GRANTED transition and on the LOCKED→IDLE expiry transition, and on no
other transition. -/
theorem attempt_counter_invariant (c : Config) (h : Reachable c)
    (m : Bool) (k : Option Char) (t : Nat) :
    c.failedAttempts ≤ MAX_ATTEMPTS ∧
    ((tick c m k t).1.failedAttempts = MAX_ATTEMPTS ∧
        c.failedAttempts < MAX_ATTEMPTS →
      (tick c m k t).1.state = State.LOCKED) ∧
    (c.state = State.LOCKED →
      (tick c m k t).1 = c ∨
      ((tick c m k t).1.state = State.IDLE ∧
        (tick c m k t).1.failedAttempts = 0)) ∧
    ((c.state = State.PROMPT ∨ c.state = State.ENTRY) → k = some '#' →
      ¬ c.inputBuffer.length < PASS_LEN →
      isPasswordCorrect c.inputBuffer = true →
      (tick c m k t).1.failedAttempts = 0) ∧
    ((tick c m k t).1.failedAttempts = 0 → c.failedAttempts ≠ 0 →
      (c.state = State.LOCKED ∧ (tick c m k t).1.state = State.IDLE) ∨
      (k = some '#' ∧ isPasswordCorrect c.inputBuffer = true ∧
        (tick c m k t).1.state = State.IDLE)) := by
  obtain ⟨hb, hfa, hlk, hidle, hg, hd⟩ := reachable_inv c h
  cases hst : c.state with
  | IDLE =>
    have hfa0 := hfa (Or.inl hst)
    cases m with
    | false =>
      simp only [tick_idle_still c k t hst]
      refine ⟨Nat.le_of_lt hfa0, ?_, ?_, ?_, ?_⟩
      · intro hcon; exfalso; simp only [MAX_ATTEMPTS] at hcon; omega
      · intro hc; exact absurd hc (by decide)
      · intro hor; rcases hor with h2 | h2 <;> exact absurd h2 (by decide)
      · intro h0 hne; exact absurd h0 hne
    | true =>
      simp only [tick_idle_motion c k t hst]
      refine ⟨Nat.le_of_lt hfa0, ?_, ?_, ?_, ?_⟩
      · intro hcon; exfalso; simp only [MAX_ATTEMPTS] at hcon; omega
      · intro hc; exact absurd hc (by decide)
      · intro hor; rcases hor with h2 | h2 <;> exact absurd h2 (by decide)
      · intro h0 hne; exact absurd h0 hne
  | PROMPT =>
    have hs : c.state = State.PROMPT ∨ c.state = State.ENTRY := Or.inl hst
    obtain ⟨a1, a2, a3⟩ := attempt_counter_entry_aux c m k t hs
    refine ⟨Nat.le_of_lt (hfa (Or.inr (Or.inl hst))), a1, ?_, fun _ => a2, ?_⟩
    · intro hc; exact absurd hc (by decide)
    · intro h0 hne; exact Or.inr (a3 h0 hne)
  | ENTRY =>
    have hs : c.state = State.PROMPT ∨ c.state = State.ENTRY := Or.inr hst
    obtain ⟨a1, a2, a3⟩ := attempt_counter_entry_aux c m k t hs
    refine ⟨Nat.le_of_lt (hfa (Or.inr (Or.inr hst))), a1, ?_, fun _ => a2, ?_⟩
    · intro hc; exact absurd hc (by decide)
    · intro h0 hne; exact Or.inr (a3 h0 hne)
  | GRANTED => exact absurd hst hg
  | DENIED => exact absurd hst hd
  | LOCKED =>
    have hfa3 := hlk hst
    simp only [tick_locked c m k t hst]
    by_cases hexp : t - c.lockoutStartMs ≥ LOCKOUT_MS
    · simp only [handleLockout_expired c t hexp]
      refine ⟨Nat.le_of_eq hfa3, ?_, ?_, ?_, ?_⟩
      · intro hcon; exfalso; simp only [MAX_ATTEMPTS] at hcon; omega
      · intro _; exact Or.inr ⟨trivial, trivial⟩
      · intro hor; rcases hor with h2 | h2 <;> exact absurd h2 (by decide)
      · intro _ _; exact Or.inl ⟨trivial, trivial⟩
    · simp only [handleLockout_waiting c t hexp]
      refine ⟨Nat.le_of_eq hfa3, ?_, ?_, ?_, ?_⟩
      · intro hcon; exfalso
        simp only [MAX_ATTEMPTS] at hcon hfa3; omega
      · intro _; exact Or.inl trivial
      · intro hor; rcases hor with h2 | h2 <;> exact absurd h2 (by decide)
      · intro h0 hne; exact absurd h0 hne

/-- C1: in the entry phase, submitting when the buffer equals the secret
runs the source's GRANTED transition (`goGranted`): the attempt counter is
reset to 0, the side effects perform LED-granted, success feedback, door
open, hold, door close, LED off in that order, and the final state is IDLE. -/
theorem granted_submit_door_sequence (c : Config) (m : Bool) (t : Nat)
    (hs : c.state = State.PROMPT ∨ c.state = State.ENTRY)
    (hbuf : c.inputBuffer = PASSWORD) :
    tick c m (some '#') t =
      goGranted { c with entryStartMs := t, failedAttempts := 0 } t ∧
    (tick c m (some '#') t).1.state = State.IDLE ∧
    (tick c m (some '#') t).1.failedAttempts = 0 ∧
    List.Sublist
      [Effect.ledGranted, Effect.beepSuccess, Effect.doorOpen,
       Effect.delayMs 2000, Effect.doorClose, Effect.ledsOff]
      (tick c m (some '#') t).2 := by
  have hlen : ¬ c.inputBuffer.length < PASS_LEN := by
    rw [hbuf]; decide
  have hp : isPasswordCorrect c.inputBuffer = true := by
    rw [hbuf]; decide
  have h1 : tick c m (some '#') t =
      goGranted { c with entryStartMs := t, failedAttempts := 0 } t := by
    rw [tick_entry_key c m '#' t hs, handleKeypad_submit_ok c t hlen hp]
  refine ⟨h1, ?_, ?_, ?_⟩
  · rw [h1, goGranted_eq]
  · rw [h1, goGranted_eq]
  · rw [h1, goGranted_eq]
    exact (by decide :
      List.Sublist
        [Effect.ledGranted, Effect.beepSuccess, Effect.doorOpen,
         Effect.delayMs 2000, Effect.doorClose, Effect.ledsOff]
        [Effect.ledGranted, Effect.lcd "Access Granted" "Opening...",
         Effect.beepSuccess, Effect.doorOpen, Effect.delayMs 2000,
         Effect.lcd "Door Open" "Closing soon", Effect.delayMs 2000,
         Effect.doorClose, Effect.delayMs 500, Effect.ledsOff, Effect.doorClose,
         Effect.lcd "System Idle" "Waiting motion"])

/-- C3: in the entry phase, submitting with a buffer shorter than `N` does
not count a failed attempt, does not clear the buffer, leaves the machine
in its entry state, and only re-displays the prompt with the masked
progress (after the "Password short" notice). -/
theorem short_submit_not_counted (c : Config) (m : Bool) (t : Nat)
    (hs : c.state = State.PROMPT ∨ c.state = State.ENTRY)
    (hlen : c.inputBuffer.length < PASS_LEN) :
    (tick c m (some '#') t).1.failedAttempts = c.failedAttempts ∧
    (tick c m (some '#') t).1.inputBuffer = c.inputBuffer ∧
    (tick c m (some '#') t).1.state = c.state ∧
    (tick c m (some '#') t).2 =
      [Effect.lcd "Password short" "Enter 8 chars", Effect.delayMs 1000,
       Effect.lcd "Enter Password:" "", Effect.lcdMasked c.inputBuffer.length] := by
  rw [tick_entry_key c m '#' t hs, handleKeypad_submit_short c t hlen]
  exact ⟨rfl, rfl, rfl, rfl⟩

set_option maxRecDepth 100000 in
/-- C4 counterexample: with the buffer already full, a further non-control
key press does change state: it refreshes the entry deadline
(`entryStartMs = millis()`, line 248 runs on every key), here from 0 to 7. -/
theorem full_buffer_key_frame_cex :
    Reachable (run entryFullTrace) ∧
    (run entryFullTrace).state = State.ENTRY ∧
    (run entryFullTrace).inputBuffer.length = PASS_LEN ∧
    (run entryFullTrace).entryStartMs = 0 ∧
    (tick (run entryFullTrace) false (some '5') 7).1.entryStartMs = 7 ∧
    (7 : Nat) ≠ 0 :=
  ⟨reachable_run entryFullTrace, rfl, rfl, rfl, rfl, by decide⟩

/-- C4 amended: with the buffer already full, a non-control key press is
rejected with only the short error tone, and the buffer, input length,
attempt counter and machine state are unchanged — but the entry deadline is
refreshed (`entryStartMs := now`), as it is on every key press. -/
theorem full_buffer_key_rejected (c : Config) (m : Bool) (k : Char) (t : Nat)
    (hs : c.state = State.PROMPT ∨ c.state = State.ENTRY)
    (hfull : c.inputBuffer.length = PASS_LEN)
    (hk1 : k ≠ '*') (hk2 : k ≠ '#') :
    tick c m (some k) t = ({ c with entryStartMs := t }, [Effect.shortTone]) := by
  rw [tick_entry_key c m k t hs]
  exact handleKeypad_reject c t k hk1 hk2 (by rw [hfull]; exact Nat.lt_irrefl PASS_LEN)

set_option maxRecDepth 100000 in
/-- C5 counterexample: in LOCKED with 14500 ms left, the display shows
`floor(14500 / 1000) = 14` seconds, not `ceil(14500 / 1000) = 15`. -/
theorem lockout_countdown_ceil_cex :
    Reachable (run lockoutTrace) ∧
    (run lockoutTrace).state = State.LOCKED ∧
    (run lockoutTrace).lockoutStartMs = 0 ∧
    (500 : Nat) < (run lockoutTrace).lockoutStartMs + LOCKOUT_MS ∧
    (tick (run lockoutTrace) false none 500).2 = [Effect.lcdCountdown 14] ∧
    ((run lockoutTrace).lockoutStartMs + LOCKOUT_MS - 500 + 1000 - 1) / 1000 = 15 ∧
    (14 : Nat) ≠ 15 :=
  ⟨reachable_run lockoutTrace, rfl, rfl, by decide, rfl, by decide, by decide⟩

/-- C5 amended: in LOCKED before the deadline, the tick changes nothing and
displays `floor((Deadline - now) / 1000)` remaining seconds (truncating
integer division), where `Deadline = lockoutStartMs + LOCKOUT_MS`. -/
theorem lockout_countdown_displays_floor (c : Config) (m : Bool)
    (k : Option Char) (t : Nat) (hs : c.state = State.LOCKED)
    (h1 : c.lockoutStartMs ≤ t) (h2 : t < c.lockoutStartMs + LOCKOUT_MS) :
    (tick c m k t).1 = c ∧
    (tick c m k t).2 =
      [Effect.lcdCountdown ((c.lockoutStartMs + LOCKOUT_MS - t) / 1000)] := by
  have hexp : ¬ t - c.lockoutStartMs ≥ LOCKOUT_MS := by omega
  rw [tick_locked c m k t hs, handleLockout_waiting c t hexp]
  refine ⟨rfl, ?_⟩
  have : LOCKOUT_MS - (t - c.lockoutStartMs) = c.lockoutStartMs + LOCKOUT_MS - t := by
    omega
  rw [this]

/-- C7 counterexample: on a full-length buffer whose first character already
differs from the secret, the comparison loop performs 1 comparison, not
`N = 8`: it is not an unconditional full scan. -/
theorem password_compare_early_exit_cex :
    (['0', '0', '0', '0', '0', '0', '0', '0'] : List Char).length = PASS_LEN ∧
    passwordComparisons ['0', '0', '0', '0', '0', '0', '0', '0'] = 1 ∧
    (1 : Nat) ≠ PASS_LEN :=
  ⟨rfl, rfl, by decide⟩

/-- C7 amended: on a buffer of length `N` the comparison returns true iff
the buffer equals the secret (equivalently, iff every one of the `N`
positions matches), but the loop exits at the first mismatch rather than
comparing all `N` positions unconditionally: it performs at most `N`
comparisons, all `N` whenever the password matches, and exactly `j + 1`
comparisons when the first mismatch is at position `j`. -/
theorem password_compare_correct_with_early_exit (buf : List Char)
    (hl : buf.length = PASS_LEN) :
    (isPasswordCorrect buf = true ↔ buf = PASSWORD) ∧
    (isPasswordCorrect buf = true ↔
      ∀ j, j < PASS_LEN → buf.getD j ' ' = PASSWORD.getD j ' ') ∧
    passwordComparisons buf ≤ PASS_LEN ∧
    (isPasswordCorrect buf = true → passwordComparisons buf = PASS_LEN) ∧
    (∀ j, j < PASS_LEN →
      (∀ i, i < j → buf.getD i ' ' = PASSWORD.getD i ' ') →
      buf.getD j ' ' ≠ PASSWORD.getD j ' ' →
      passwordComparisons buf = j + 1) := by
  refine ⟨isPasswordCorrect_iff buf hl, ?_, passLoop_count_le buf PASS_LEN 0, ?_, ?_⟩
  · simpa [isPasswordCorrect] using passLoop_true_iff buf PASS_LEN 0
  · exact passLoop_count_of_true buf PASS_LEN 0
  · intro j hj hbelow hmis
    have := passLoop_count_first_mismatch buf PASS_LEN 0 j hj
      (fun l hl2 => by simpa using hbelow l hl2) (by simpa using hmis)
    simpa [passwordComparisons] using this

/-- C8: in the entry phase a tick evaluates exactly one of the two checks
to completion: with a key event the tick is exactly the keypad handler
(the timeout check contributes nothing, because the key press refreshes the
deadline to `now`), and with no key it is exactly the timeout check — which,
under the expiry hypothesis of this same tick, would have fired. -/
theorem input_priority_over_timeout (c : Config) (m : Bool) (k : Char) (t : Nat)
    (hs : c.state = State.PROMPT ∨ c.state = State.ENTRY)
    (hexp : c.entryStartMs + IDLE_TIMEOUT_MS < t) :
    tick c m (some k) t = handleKeypad c (some k) t ∧
    (handleKeypad c (some k) t).1.entryStartMs = t ∧
    tick c m none t = handleTimeout c t ∧
    (tick c m none t).1.state = State.IDLE := by
  refine ⟨tick_entry_key c m k t hs, handleKeypad_entryStart c k t,
    tick_entry_nokey c m t hs, ?_⟩
  rw [tick_entry_nokey c m t hs, handleTimeout_expired c t hs (by omega)]

set_option maxRecDepth 100000 in
/-- C6 counterexample: after three wrong submissions the machine is LOCKED
and the buffer still holds the last wrong code; the lockout-expiry tick
clears it — the buffer is mutated while the state is LOCKED, not ENTRY. -/
theorem buffer_cleared_in_locked_cex :
    Reachable (run lockoutTrace) ∧
    (run lockoutTrace).state = State.LOCKED ∧
    absState (run lockoutTrace).state ≠ AbsState.ENTRY ∧
    (run lockoutTrace).inputBuffer = ['8', '7', '6', '5', '4', '3', '2', '1'] ∧
    (tick (run lockoutTrace) false none 15000).1.inputBuffer = ([] : List Char) ∧
    (['8', '7', '6', '5', '4', '3', '2', '1'] : List Char) ≠ ([] : List Char) :=
  ⟨reachable_run lockoutTrace, rfl, by decide, rfl, rfl, by decide⟩

/-- C6 amended: in every reachable configuration the buffer length is in
[0, N]; a full buffer accepts no further characters (non-control keys are
rejected without touching it); and outside the entry phase the buffer is
never mutated, except that the LOCKED→IDLE expiry transition clears it. -/
theorem input_buffer_invariant (c : Config) (h : Reachable c)
    (m : Bool) (k : Option Char) (t : Nat) (kc : Char) :
    c.inputBuffer.length ≤ PASS_LEN ∧
    (absState c.state ≠ AbsState.ENTRY →
      (tick c m k t).1.inputBuffer = c.inputBuffer ∨
      (c.state = State.LOCKED ∧ (tick c m k t).1.state = State.IDLE ∧
        (tick c m k t).1.inputBuffer = ([] : List Char))) ∧
    ((c.state = State.PROMPT ∨ c.state = State.ENTRY) →
      c.inputBuffer.length = PASS_LEN →
      k = some kc → kc ≠ '*' → kc ≠ '#' →
      (tick c m k t).1.inputBuffer = c.inputBuffer) := by
  obtain ⟨hb, hfa, hlk, hidle, hg, hd⟩ := reachable_inv c h
  have hreject : (c.state = State.PROMPT ∨ c.state = State.ENTRY) →
      c.inputBuffer.length = PASS_LEN →
      k = some kc → kc ≠ '*' → kc ≠ '#' →
      (tick c m k t).1.inputBuffer = c.inputBuffer := by
    intro hs hfull hkc hk1 hk2
    subst hkc
    rw [tick_entry_key c m kc t hs,
      handleKeypad_reject c t kc hk1 hk2
        (by rw [hfull]; exact Nat.lt_irrefl PASS_LEN)]
  cases hst : c.state with
  | IDLE =>
    obtain ⟨hg1, hg2, hg3, hg4, hbuf⟩ := hidle hst
    refine ⟨hb, ?_, ?_⟩
    · intro _
      cases m with
      | false => simp only [tick_idle_still c k t hst]; exact Or.inl trivial
      | true =>
        simp only [tick_idle_motion c k t hst]
        exact Or.inl hbuf.symm
    · intro hor; rcases hor with h2 | h2 <;> exact absurd h2 (by decide)
  | PROMPT =>
    refine ⟨hb, ?_, fun _ => hreject (Or.inl hst)⟩
    intro habs; exact absurd rfl habs
  | ENTRY =>
    refine ⟨hb, ?_, fun _ => hreject (Or.inr hst)⟩
    intro habs; exact absurd rfl habs
  | GRANTED => exact absurd hst hg
  | DENIED => exact absurd hst hd
  | LOCKED =>
    simp only [tick_locked c m k t hst]
    by_cases hexp : t - c.lockoutStartMs ≥ LOCKOUT_MS
    · simp only [handleLockout_expired c t hexp]
      refine ⟨hb, ?_, ?_⟩
      · intro _; exact Or.inr ⟨trivial, trivial, trivial⟩
      · intro hor; rcases hor with h2 | h2 <;> exact absurd h2 (by decide)
    · simp only [handleLockout_waiting c t hexp]
      refine ⟨hb, ?_, ?_⟩
      · intro _; exact Or.inl trivial
      · intro hor; rcases hor with h2 | h2 <;> exact absurd h2 (by decide)

theorem absConfig_entry_of_prompt (c : Config) (hs : c.state = State.PROMPT) :
    absConfig { c with state := State.ENTRY } = absConfig c := by
  simp [absConfig, hs, absState]

/-- C9: the implementation's `PROMPT` state is observationally equivalent
to `ENTRY`: for every key event and every timeout check (and hence for the
whole tick), running the handlers from a `PROMPT` configuration and from
the same configuration relabelled `ENTRY` produces the same effects and
configurations that agree under the five-state abstraction merging PROMPT
into ENTRY. -/
theorem prompt_entry_simulation (c : Config) (hs : c.state = State.PROMPT)
    (m : Bool) (k : Option Char) (t : Nat) :
    absRes (handleKeypad c k t) =
      absRes (handleKeypad { c with state := State.ENTRY } k t) ∧
    absRes (handleTimeout c t) =
      absRes (handleTimeout { c with state := State.ENTRY } t) ∧
    absRes (tick c m k t) = absRes (tick { c with state := State.ENTRY } m k t) := by
  have hkey : ∀ kk, absRes (handleKeypad c kk t) =
      absRes (handleKeypad { c with state := State.ENTRY } kk t) := by
    intro kk
    rcases kk with _ | kc
    · simp only [handleKeypad_none, absRes]
      rw [absConfig_entry_of_prompt c hs]
    · by_cases hk1 : kc = '*'
      · subst hk1
        simp [handleKeypad_cancel, absRes]
      · by_cases hk2 : kc = '#'
        · subst hk2
          by_cases hlen : c.inputBuffer.length < PASS_LEN
          · simp only [handleKeypad_submit_short c t hlen,
              handleKeypad_submit_short { c with state := State.ENTRY } t hlen,
              absRes]
            simp [absConfig, absState, hs]
          · by_cases hp : isPasswordCorrect c.inputBuffer = true
            · simp only [handleKeypad_submit_ok c t hlen hp,
                handleKeypad_submit_ok { c with state := State.ENTRY } t hlen hp,
                goGranted_eq, absRes]
            · have hpf : isPasswordCorrect c.inputBuffer = false := by simpa using hp
              simp only [handleKeypad_submit_wrong c t hlen hpf,
                handleKeypad_submit_wrong { c with state := State.ENTRY } t hlen hpf]
              by_cases hge : c.failedAttempts + 1 ≥ MAX_ATTEMPTS
              · simp only [goDenied_locked { c with entryStartMs := t } t hge,
                  goDenied_locked
                    { c with state := State.ENTRY, entryStartMs := t } t hge,
                  absRes]
              · simp only [goDenied_prompt { c with entryStartMs := t } t hge,
                  goDenied_prompt
                    { c with state := State.ENTRY, entryStartMs := t } t hge,
                  absRes]
        · by_cases hlen : c.inputBuffer.length < PASS_LEN
          · simp only [handleKeypad_append c t kc hk1 hk2 hlen,
              handleKeypad_append { c with state := State.ENTRY } t kc hk1 hk2 hlen,
              absRes]
            simp [absConfig, absState, hs]
          · simp only [handleKeypad_reject c t kc hk1 hk2 hlen,
              handleKeypad_reject { c with state := State.ENTRY } t kc hk1 hk2 hlen,
              absRes]
            simp [absConfig, absState, hs]
  have htime : absRes (handleTimeout c t) =
      absRes (handleTimeout { c with state := State.ENTRY } t) := by
    by_cases hexp : t - c.entryStartMs > IDLE_TIMEOUT_MS
    · rw [handleTimeout_expired c t (Or.inl hs) hexp,
        handleTimeout_expired { c with state := State.ENTRY } t (Or.inr rfl) hexp]
    · rw [handleTimeout_not_expired c t hexp,
        handleTimeout_not_expired { c with state := State.ENTRY } t hexp]
      simp only [absRes]
      rw [absConfig_entry_of_prompt c hs]
  refine ⟨hkey k, htime, ?_⟩
  rcases k with _ | kc
  · rw [tick_entry_nokey c m t (Or.inl hs),
      tick_entry_nokey { c with state := State.ENTRY } m t (Or.inr rfl)]
    exact htime
  · rw [tick_entry_key c m kc t (Or.inl hs),
      tick_entry_key { c with state := State.ENTRY } m kc t (Or.inr rfl)]
    exact hkey (some kc)

/-- An IDLE configuration with the `goIdle` output fields is a fixed point
of `goIdle`. -/
theorem goIdle_fixpoint (d : Config) (h1 : d.state = State.IDLE)
    (h2 : d.greenLed = false) (h3 : d.redLed = false)
    (h4 : d.servo1 = SERVO1_CLOSED) (h5 : d.servo2 = SERVO2_CLOSED)
    (h6 : d.inputBuffer = ([] : List Char)) :
    d = (goIdle d d.entryStartMs).1 := by
  cases d
  simp only [goIdle] at *
  simp_all

/-- C10: in every reachable IDLE configuration both LEDs are off, the door
is at the closed position and the buffer is empty; and every tick that ends
in IDLE ends in exactly a `goIdle` output (every transition into IDLE
passes through `goIdle`). -/
theorem idle_via_goIdle (c : Config) (h : Reachable c) (m : Bool)
    (k : Option Char) (t : Nat) :
    (c.state = State.IDLE →
      c.greenLed = false ∧ c.redLed = false ∧ c.servo1 = SERVO1_CLOSED ∧
      c.servo2 = SERVO2_CLOSED ∧ c.inputBuffer = ([] : List Char)) ∧
    ((tick c m k t).1.state = State.IDLE →
      (tick c m k t).1 =
        (goIdle (tick c m k t).1 ((tick c m k t).1.entryStartMs)).1) := by
  obtain ⟨hb, hfa, hlk, hidle, hg, hd⟩ := reachable_inv c h
  refine ⟨hidle, ?_⟩
  intro hs
  obtain ⟨hb2, hfa2, hlk2, hidle2, hg2, hd2⟩ :=
    reachable_inv _ (Reachable.step c m k t h)
  obtain ⟨g1, g2, g3, g4, g5⟩ := hidle2 hs
  exact goIdle_fixpoint _ hs g1 g2 g3 g4 g5

/-! ### Concrete witness configurations -/

/-- An entry configuration holding the correct code. -/
def cfgEntryPassword : Config :=
  { state := State.ENTRY, inputBuffer := PASSWORD, failedAttempts := 0,
    entryStartMs := 0, lockoutStartMs := 0, greenLed := false, redLed := false,
    servo1 := SERVO1_CLOSED, servo2 := SERVO2_CLOSED }

/-- An entry configuration with a one-character buffer. -/
def cfgEntryShort : Config :=
  { state := State.ENTRY, inputBuffer := ['1'], failedAttempts := 0,
    entryStartMs := 0, lockoutStartMs := 0, greenLed := false, redLed := false,
    servo1 := SERVO1_CLOSED, servo2 := SERVO2_CLOSED }

/-- An entry configuration with a full, wrong buffer. -/
def cfgEntryWrongFull : Config :=
  { state := State.ENTRY, inputBuffer := ['8', '7', '6', '5', '4', '3', '2', '1'],
    failedAttempts := 0, entryStartMs := 0, lockoutStartMs := 0,
    greenLed := false, redLed := false,
    servo1 := SERVO1_CLOSED, servo2 := SERVO2_CLOSED }

/-- A locked-out configuration. -/
def cfgLocked : Config :=
  { state := State.LOCKED, inputBuffer := ['8', '7', '6', '5', '4', '3', '2', '1'],
    failedAttempts := MAX_ATTEMPTS, entryStartMs := 0, lockoutStartMs := 0,
    greenLed := false, redLed := true,
    servo1 := SERVO1_CLOSED, servo2 := SERVO2_CLOSED }

/-- A re-prompt configuration after one denial. -/
def cfgPrompt : Config :=
  { state := State.PROMPT, inputBuffer := [], failedAttempts := 1,
    entryStartMs := 0, lockoutStartMs := 0, greenLed := false, redLed := false,
    servo1 := SERVO1_CLOSED, servo2 := SERVO2_CLOSED }

/-! ### Witnesses -/

/-- Witness for the C1 theorem at a concrete entry configuration. -/
theorem granted_submit_door_sequence_witness :
    tick cfgEntryPassword false (some '#') 5 =
      goGranted { cfgEntryPassword with entryStartMs := 5, failedAttempts := 0 } 5 ∧
    (tick cfgEntryPassword false (some '#') 5).1.state = State.IDLE ∧
    (tick cfgEntryPassword false (some '#') 5).1.failedAttempts = 0 ∧
    List.Sublist
      [Effect.ledGranted, Effect.beepSuccess, Effect.doorOpen,
       Effect.delayMs 2000, Effect.doorClose, Effect.ledsOff]
      (tick cfgEntryPassword false (some '#') 5).2 :=
  granted_submit_door_sequence cfgEntryPassword false 5 (Or.inr rfl) rfl

/-- Witness for the C2 theorem at the startup configuration. -/
theorem attempt_counter_invariant_witness :
    initConfig.failedAttempts ≤ MAX_ATTEMPTS ∧
    ((tick initConfig false none 0).1.failedAttempts = MAX_ATTEMPTS ∧
        initConfig.failedAttempts < MAX_ATTEMPTS →
      (tick initConfig false none 0).1.state = State.LOCKED) ∧
    (initConfig.state = State.LOCKED →
      (tick initConfig false none 0).1 = initConfig ∨
      ((tick initConfig false none 0).1.state = State.IDLE ∧
        (tick initConfig false none 0).1.failedAttempts = 0)) ∧
    ((initConfig.state = State.PROMPT ∨ initConfig.state = State.ENTRY) →
      (none : Option Char) = some '#' →
      ¬ initConfig.inputBuffer.length < PASS_LEN →
      isPasswordCorrect initConfig.inputBuffer = true →
      (tick initConfig false none 0).1.failedAttempts = 0) ∧
    ((tick initConfig false none 0).1.failedAttempts = 0 →
      initConfig.failedAttempts ≠ 0 →
      (initConfig.state = State.LOCKED ∧
        (tick initConfig false none 0).1.state = State.IDLE) ∨
      ((none : Option Char) = some '#' ∧
        isPasswordCorrect initConfig.inputBuffer = true ∧
        (tick initConfig false none 0).1.state = State.IDLE)) :=
  attempt_counter_invariant initConfig Reachable.init false none 0

/-- Witness for the C3 theorem at a concrete short-buffer configuration. -/
theorem short_submit_not_counted_witness :
    (tick cfgEntryShort false (some '#') 3).1.failedAttempts =
      cfgEntryShort.failedAttempts ∧
    (tick cfgEntryShort false (some '#') 3).1.inputBuffer =
      cfgEntryShort.inputBuffer ∧
    (tick cfgEntryShort false (some '#') 3).1.state = cfgEntryShort.state ∧
    (tick cfgEntryShort false (some '#') 3).2 =
      [Effect.lcd "Password short" "Enter 8 chars", Effect.delayMs 1000,
       Effect.lcd "Enter Password:" "",
       Effect.lcdMasked cfgEntryShort.inputBuffer.length] :=
  short_submit_not_counted cfgEntryShort false 3 (Or.inr rfl) (by decide)

/-- Witness for the amended C4 theorem at a concrete full-buffer
configuration. -/
theorem full_buffer_key_rejected_witness :
    tick cfgEntryWrongFull false (some '5') 7 =
      ({ cfgEntryWrongFull with entryStartMs := 7 }, [Effect.shortTone]) :=
  full_buffer_key_rejected cfgEntryWrongFull false '5' 7 (Or.inr rfl) (by decide)
    (by decide) (by decide)

/-- Witness for the amended C5 theorem at a concrete locked configuration. -/
theorem lockout_countdown_displays_floor_witness :
    (tick cfgLocked false none 500).1 = cfgLocked ∧
    (tick cfgLocked false none 500).2 =
      [Effect.lcdCountdown ((cfgLocked.lockoutStartMs + LOCKOUT_MS - 500) / 1000)] :=
  lockout_countdown_displays_floor cfgLocked false none 500 rfl (by decide)
    (by decide)

/-- Witness for the C6 theorem at the startup configuration. -/
theorem input_buffer_invariant_witness :
    initConfig.inputBuffer.length ≤ PASS_LEN ∧
    (absState initConfig.state ≠ AbsState.ENTRY →
      (tick initConfig false none 0).1.inputBuffer = initConfig.inputBuffer ∨
      (initConfig.state = State.LOCKED ∧
        (tick initConfig false none 0).1.state = State.IDLE ∧
        (tick initConfig false none 0).1.inputBuffer = ([] : List Char))) ∧
    ((initConfig.state = State.PROMPT ∨ initConfig.state = State.ENTRY) →
      initConfig.inputBuffer.length = PASS_LEN →
      (none : Option Char) = some '5' → ('5' : Char) ≠ '*' → ('5' : Char) ≠ '#' →
      (tick initConfig false none 0).1.inputBuffer = initConfig.inputBuffer) :=
  input_buffer_invariant initConfig Reachable.init false none 0 '5'

/-- Witness for the amended C7 theorem at the secret itself. -/
theorem password_compare_correct_with_early_exit_witness :
    (isPasswordCorrect PASSWORD = true ↔ PASSWORD = PASSWORD) ∧
    (isPasswordCorrect PASSWORD = true ↔
      ∀ j, j < PASS_LEN → PASSWORD.getD j ' ' = PASSWORD.getD j ' ') ∧
    passwordComparisons PASSWORD ≤ PASS_LEN ∧
    (isPasswordCorrect PASSWORD = true → passwordComparisons PASSWORD = PASS_LEN) ∧
    (∀ j, j < PASS_LEN →
      (∀ i, i < j → PASSWORD.getD i ' ' = PASSWORD.getD i ' ') →
      PASSWORD.getD j ' ' ≠ PASSWORD.getD j ' ' →
      passwordComparisons PASSWORD = j + 1) :=
  password_compare_correct_with_early_exit PASSWORD (by decide)

/-- Witness for the C8 theorem at a concrete expired entry configuration. -/
theorem input_priority_over_timeout_witness :
    tick cfgEntryWrongFull false (some '5') 20000 =
      handleKeypad cfgEntryWrongFull (some '5') 20000 ∧
    (handleKeypad cfgEntryWrongFull (some '5') 20000).1.entryStartMs = 20000 ∧
    tick cfgEntryWrongFull false none 20000 =
      handleTimeout cfgEntryWrongFull 20000 ∧
    (tick cfgEntryWrongFull false none 20000).1.state = State.IDLE :=
  input_priority_over_timeout cfgEntryWrongFull false '5' 20000 (Or.inr rfl)
    (by decide)

/-- Witness for the C9 theorem at a concrete prompt configuration. -/
theorem prompt_entry_simulation_witness :
    absRes (handleKeypad cfgPrompt none 2) =
      absRes (handleKeypad { cfgPrompt with state := State.ENTRY } none 2) ∧
    absRes (handleTimeout cfgPrompt 2) =
      absRes (handleTimeout { cfgPrompt with state := State.ENTRY } 2) ∧
    absRes (tick cfgPrompt false none 2) =
      absRes (tick { cfgPrompt with state := State.ENTRY } false none 2) :=
  prompt_entry_simulation cfgPrompt rfl false none 2

/-- Witness for the C10 theorem at the startup configuration. -/
theorem idle_via_goIdle_witness :
    (initConfig.state = State.IDLE →
      initConfig.greenLed = false ∧ initConfig.redLed = false ∧
      initConfig.servo1 = SERVO1_CLOSED ∧ initConfig.servo2 = SERVO2_CLOSED ∧
      initConfig.inputBuffer = ([] : List Char)) ∧
    ((tick initConfig false none 0).1.state = State.IDLE →
      (tick initConfig false none 0).1 =
        (goIdle (tick initConfig false none 0).1
          ((tick initConfig false none 0).1.entryStartMs)).1) :=
  idle_via_goIdle initConfig Reachable.init false none 0

end SmartDoorLock
